import Mathlib

/-!
# Verification of the 1:1 chat backend (`src/main.py`, `src/schemas.py`)

Shallow embedding of the chat backend: a FastAPI application over a MongoDB
document store with three collections (`chatuser`, `conversation`, `message`).

Modelling decisions:
* Store-native identifiers (`bson.ObjectId`) are modelled as `Nat`, allocated
  by a monotone counter in the store state.  This preserves the properties the
  code relies on: ids are globally unique, monotonically increasing in
  creation order, totally ordered, and have an external string form whose
  decoding can fail (`bson.errors.InvalidId` on malformed input).
* `datetime.utcnow()` is modelled as a `Nat` timestamp supplied to the
  handler by the runtime.
* MongoDB operations are modelled over a list-per-collection store:
  `find_one` returns the first matching document in insertion order,
  `insert` appends, `update_one` replaces the first matching document,
  `sort("_id", -1)` sorts descending by id, and `.limit(n)` with `n = 0`
  is pymongo's "no limit".
* FastAPI behaviour: an `HTTPException` raised by a handler becomes a
  structured status/detail response (`ApiError.http`); any other uncaught
  Python exception (for example `bson.errors.InvalidId` from an `ObjectId`
  constructor) propagates out of the handler and is surfaced as a generic
  500 server error, modelled by `ApiError.uncaught`.
* Handlers return `Except ApiError result × Store`: the resulting store is
  threaded explicitly so that frame conditions ("nothing was inserted") are
  statable on error paths.
-/

deriving instance DecidableEq for Except

namespace Chat

/-- Store-native document identifier (models `bson.ObjectId`): allocated
monotonically by creation order, globally unique. -/
abbrev OID := Nat

/-- The character for a single decimal digit. -/
def digitChar (d : Nat) : Char := Char.ofNat (48 + d)

/-- Decimal digit list of `n` (most significant first), by fuel recursion so
that it reduces definitionally on concrete inputs. -/
def encodeAux : Nat → Nat → List Char
  | 0, _ => []
  | fuel + 1, n =>
    if n < 10 then [digitChar n]
    else encodeAux fuel (n / 10) ++ [digitChar (n % 10)]

/-- External string form of an identifier (models `str(ObjectId)`):
the identifier rendered as a string of digit characters. -/
def encodeId (n : OID) : String := ⟨encodeAux (n + 1) n⟩

/-- Numeric value of a digit character, `none` on anything else. -/
def digitVal (c : Char) : Option Nat :=
  if 48 ≤ c.toNat ∧ c.toNat ≤ 57 then some (c.toNat - 48) else none

/-- Accumulating decimal parser over a character list. -/
def decodeAux : List Char → Nat → Option Nat
  | [], acc => some acc
  | c :: cs, acc =>
    match digitVal c with
    | none => none
    | some d => decodeAux cs (acc * 10 + d)

/-- Decoding an external identifier string (models the `ObjectId(s)`
constructor, which raises `bson.errors.InvalidId` on malformed input,
here `none`).  Decoding succeeds exactly on well-formed identifier strings
(non-empty, all digit characters) and inverts `encodeId`. -/
def decodeId (s : String) : Option OID :=
  match s.data with
  | [] => none
  | cs => decodeAux cs 0

/-- A document in the `chatuser` collection. -/
structure UserDoc where
  _id : OID
  username : String
  avatar_color : String
deriving DecidableEq, Repr

/-- A document in the `conversation` collection.  `updated_at` is absent
(`none`) until the first message is sent. -/
structure ConvDoc where
  _id : OID
  participant_ids : List String
  last_message_preview : Option String
  updated_at : Option Nat
deriving DecidableEq, Repr

/-- A document in the `message` collection.  `conversation_id` is stored as
the external string taken verbatim from the request payload
(`payload.conversation_id`), exactly as `send_message` inserts it. -/
structure MsgDoc where
  _id : OID
  conversation_id : String
  sender_id : String
  text : String
  delivered : Bool
  read : Bool
deriving DecidableEq, Repr

/-- The document store: three collections kept in insertion order, plus the
allocation counter for fresh identifiers. -/
structure Store where
  users : List UserDoc
  convs : List ConvDoc
  msgs : List MsgDoc
  nextId : OID
deriving DecidableEq, Repr

/-- The empty store. -/
def Store.empty : Store := ⟨[], [], [], 0⟩

/-- Outcome of a failed request.
`http status detail` models a raised `fastapi.HTTPException`;
`uncaught e` models any other exception escaping the handler, which FastAPI
surfaces as a generic 500 server error, not a structured client error. -/
inductive ApiError where
  | http (status : Nat) (detail : String)
  | uncaught (exc : String)
deriving DecidableEq, Repr

/-- Request body of `POST /users` (class `CreateUser` in `main.py`):
`username : str` with no length constraints, `avatar_color` optional with
default `"#6366F1"`. -/
structure CreateUser where
  username : String
  avatar_color : String
deriving DecidableEq, Repr

/-- Request body of `POST /messages` (class `SendMessage` in `main.py`):
three required strings, no length constraints. -/
structure SendMessage where
  conversation_id : String
  sender_id : String
  text : String
deriving DecidableEq, Repr

/-- Pydantic validation of the `POST /users` body against `CreateUser`:
`username` must be present (a string); `avatar_color` defaults to
`"#6366F1"` when absent.  No other check exists on this model. -/
def validateCreateUser (username : Option String) (avatar_color : Option String) :
    Except String CreateUser :=
  match username with
  | none => .error "field required: username"
  | some u => .ok ⟨u, avatar_color.getD "#6366F1"⟩

/-- Pydantic validation of the `POST /messages` body against `SendMessage`:
all three fields must be present (strings).  No other check exists on this
model. -/
def validateSendMessage (conversation_id sender_id text : Option String) :
    Except String SendMessage :=
  match conversation_id, sender_id, text with
  | some c, some s, some t => .ok ⟨c, s, t⟩
  | _, _, _ => .error "field required"

/-- The username constraint declared by `schemas.ChatUser`
(`min_length=2, max_length=24`). -/
def ChatUser.usernameValid (username : String) : Bool :=
  2 ≤ username.length && username.length ≤ 24

/-- The text constraint declared by `schemas.Message`
(`min_length=1, max_length=4000`). -/
def Message.textValid (text : String) : Bool :=
  1 ≤ text.length && text.length ≤ 4000

/-- `db["conversation"].find_one({"_id": oid})`: first conversation document
with the given id, in insertion order. -/
def findConv (st : Store) (oid : OID) : Option ConvDoc :=
  st.convs.find? (fun c => c._id == oid)

/-- `update_one({"_id": oid}, {"$set": ...})` on a collection: replace the
first document whose `_id` matches. -/
def updateFirstConv (l : List ConvDoc) (oid : OID) (f : ConvDoc → ConvDoc) :
    List ConvDoc :=
  match l with
  | [] => []
  | c :: rest => if c._id == oid then f c :: rest else c :: updateFirstConv rest oid f

/-- pymongo cursor `.limit(n)`: `n = 0` means no limit; otherwise at most
`|n|` documents are returned. -/
def mongoLimit {α : Type} (limit : Int) (l : List α) : List α :=
  if limit = 0 then l else l.take limit.natAbs

/-- Handler `create_user` (`POST /users`): insert the payload as a new
`chatuser` document with a fresh id and return the inserted document.
No validation happens in the handler. -/
def create_user (st : Store) (payload : CreateUser) : UserDoc × Store :=
  let uid := st.nextId
  let doc : UserDoc := ⟨uid, payload.username, payload.avatar_color⟩
  (doc, { st with users := st.users ++ [doc], nextId := st.nextId + 1 })

/-- Handler `start_conversation` (`POST /conversations`):
reject `user_a == user_b` with HTTP 400; otherwise look up an existing
conversation whose `participant_ids` contains both ids
(`{"$all": [a, b]}`, order-insensitive set containment) and return it
unchanged, or insert a fresh one with `participant_ids = [a, b]` and
`last_message_preview = None`. -/
def start_conversation (st : Store) (a b : String) :
    Except ApiError ConvDoc × Store :=
  if a = b then
    (.error (.http 400 "Cannot start conversation with self"), st)
  else
    match st.convs.find? (fun c => c.participant_ids.contains a && c.participant_ids.contains b) with
    | some existing => (.ok existing, st)
    | none =>
      let cid := st.nextId
      let doc : ConvDoc := ⟨cid, [a, b], none, none⟩
      (.ok doc, { st with convs := st.convs ++ [doc], nextId := st.nextId + 1 })

/-- Handler `send_message` (`POST /messages`), at wall-clock time `now`:
1. `ObjectId(payload.conversation_id)` — a malformed id raises
   `bson.errors.InvalidId`, which the handler does not catch (`uncaught`);
2. missing conversation → HTTP 404; sender not a participant → HTTP 403;
3. otherwise insert the message (`delivered = True`, `read = False`), then
   `$set` the conversation's `last_message_preview` and `updated_at`. -/
def send_message (st : Store) (now : Nat) (payload : SendMessage) :
    Except ApiError MsgDoc × Store :=
  match decodeId payload.conversation_id with
  | none => (.error (.uncaught "bson.errors.InvalidId"), st)
  | some oid =>
    match findConv st oid with
    | none => (.error (.http 404 "Conversation not found"), st)
    | some conv =>
      if conv.participant_ids.contains payload.sender_id then
        let mid := st.nextId
        let msg : MsgDoc :=
          ⟨mid, payload.conversation_id, payload.sender_id, payload.text, true, false⟩
        let st1 : Store := { st with msgs := st.msgs ++ [msg], nextId := st.nextId + 1 }
        let setFields : ConvDoc → ConvDoc := fun c =>
          { c with last_message_preview := some payload.text, updated_at := some now }
        let st2 : Store := { st1 with convs := updateFirstConv st1.convs conv._id setFields }
        (.ok msg, st2)
      else
        (.error (.http 403 "Sender not in conversation"), st)

/-- Handler `list_messages` (`GET /messages/{conversation_id}`):
filter messages by `conversation_id` (string equality on the stored field);
if `before` is truthy (present and non-empty) and decodes, additionally keep
only messages with id strictly less than it, and on decode failure silently
drop the filter; sort by `_id` descending, apply the pymongo limit
(default 50 at the route, unvalidated), and reverse into ascending order. -/
def list_messages (st : Store) (conversation_id : String) (limit : Int)
    (before : Option String) : List MsgDoc :=
  let beforeOid : Option OID :=
    match before with
    | none => none
    | some s => if s = "" then none else decodeId s
  let base := st.msgs.filter (fun m => m.conversation_id == conversation_id)
  let fil :=
    match beforeOid with
    | none => base
    | some b => base.filter (fun m => m._id < b)
  let sorted := List.insertionSort (fun m₁ m₂ : MsgDoc => m₂._id ≤ m₁._id) fil
  (mongoLimit limit sorted).reverse

/-! ## A concrete execution, used by the concrete theorems and witnesses -/

/-- Starting a conversation between users `"u1"` and `"u2"` on the empty
store (the conversation is allocated id `0`). -/
def exStart : Except ApiError ConvDoc × Store := start_conversation Store.empty "u1" "u2"

/-- Store holding just the `"u1"`/`"u2"` conversation, no messages. -/
def exStore0 : Store := exStart.2

/-- External string id of the example conversation. -/
def exConvId : String := encodeId 0

/-- Send a message of text `t` from `"u1"` in the example conversation. -/
def exSend (st : Store) (now : Nat) (t : String) : Store :=
  (send_message st now ⟨exConvId, "u1", t⟩).2

/-- Store after messages `m1 ... m5` are sent in order at times `1 ... 5`
(the messages are allocated ids `1 ... 5`). -/
def exStore5 : Store :=
  exSend (exSend (exSend (exSend (exSend exStore0 1 "m1") 2 "m2") 3 "m3") 4 "m4") 5 "m5"

/-- The example conversation document as it stands in `exStore5`. -/
def exConv5 : ConvDoc := ⟨0, ["u1", "u2"], some "m5", some 5⟩

/-! ## Claim theorems -/

/-- **C5.** For every Start Conversation call with `user_a = user_b`, and for
every prior store state, the call fails with the self-conversation 400 client
error and the store is unchanged (no Conversation document inserted or
returned). -/
theorem start_conversation_self_rejected (st : Store) (u : String) :
    start_conversation st u u =
      (.error (.http 400 "Cannot start conversation with self"), st) := by
  simp [start_conversation]

/-- **C4.** Whenever the referenced Conversation exists but the sender is not
among its `participant_ids`, Send Message fails with the 403 forbidden error
and the store is unchanged: no Message is inserted and the Conversation is
untouched. -/
theorem send_message_nonparticipant_forbidden (st : Store) (now : Nat)
    (p : SendMessage) (oid : OID) (hdec : decodeId p.conversation_id = some oid)
    (conv : ConvDoc) (hfind : findConv st oid = some conv)
    (hmem : p.sender_id ∉ conv.participant_ids) :
    send_message st now p = (.error (.http 403 "Sender not in conversation"), st) := by
  simp [send_message, hdec, hfind, List.contains, hmem]

/-- **C4 witness.** In `exStore5` the conversation `0` exists with
participants `"u1"`, `"u2"`; an outsider `"eve"` is rejected with 403 and
the store is unchanged. -/
theorem send_message_nonparticipant_forbidden_witness :
    send_message exStore5 9 ⟨exConvId, "eve", "hi"⟩ =
      (.error (.http 403 "Sender not in conversation"), exStore5) :=
  send_message_nonparticipant_forbidden exStore5 9 ⟨exConvId, "eve", "hi"⟩ 0
    (by decide) exConv5 (by decide) (by decide)

/-- **C1 (amended).** A Send Message call whose `conversation_id` fails to
decode raises the `bson.errors.InvalidId` exception out of the handler — an
uncaught parse error surfaced as a generic 500 server error, not the 404
`ConversationNotFound` client error; the 404 is produced only for a
well-formed id with no matching Conversation.  In both cases the store is
unchanged. -/
theorem send_message_bad_id_uncaught (st : Store) (now : Nat) (p : SendMessage) :
    (decodeId p.conversation_id = none →
      send_message st now p = (.error (.uncaught "bson.errors.InvalidId"), st)) ∧
    (∀ oid, decodeId p.conversation_id = some oid → findConv st oid = none →
      send_message st now p = (.error (.http 404 "Conversation not found"), st)) := by
  constructor
  · intro h
    simp [send_message, h]
  · intro oid h hf
    simp [send_message, h, hf]

/-- **C1 witness.** On the empty store, `conversation_id = "bad"` yields the
uncaught parse error while the well-formed-but-unknown id `"7"` yields the
404. -/
theorem send_message_bad_id_uncaught_witness :
    send_message Store.empty 0 ⟨"bad", "u1", "hi"⟩ =
      (.error (.uncaught "bson.errors.InvalidId"), Store.empty) ∧
    send_message Store.empty 0 ⟨"7", "u1", "hi"⟩ =
      (.error (.http 404 "Conversation not found"), Store.empty) :=
  ⟨(send_message_bad_id_uncaught Store.empty 0 ⟨"bad", "u1", "hi"⟩).1 (by decide),
   (send_message_bad_id_uncaught Store.empty 0 ⟨"7", "u1", "hi"⟩).2 7 (by decide) (by decide)⟩

/-- **C1 counterexample.** At `conversation_id = "bad"` (which does not
decode), Send Message produces the uncaught `InvalidId` exception, which is
not the 404 `ConversationNotFound` error the claim requires. -/
theorem send_message_bad_id_counterexample :
    send_message Store.empty 0 ⟨"bad", "u1", "hi"⟩ =
      (.error (.uncaught "bson.errors.InvalidId"), Store.empty) ∧
    ApiError.uncaught "bson.errors.InvalidId" ≠
      ApiError.http 404 "Conversation not found" := by
  decide

/-- **C7.** For every store, conversation id and limit, a List Messages call
whose `before` value fails to decode does not error and returns exactly the
same result as the identical call with no `before` parameter. -/
theorem list_messages_ignores_undecodable_before (st : Store) (cid : String)
    (limit : Int) (s : String) (hs : decodeId s = none) :
    list_messages st cid limit (some s) = list_messages st cid limit none := by
  have hnone : (if s = "" then none else decodeId s) = (none : Option OID) := by
    split <;> simp [hs]
  unfold list_messages
  dsimp only
  rw [hnone]

/-- **C7 witness.** With the five-message store, `before = "not-a-real-id"`
returns the same page as no `before` at all. -/
theorem list_messages_ignores_undecodable_before_witness :
    decodeId "not-a-real-id" = none ∧
    list_messages exStore5 exConvId 2 (some "not-a-real-id") =
      list_messages exStore5 exConvId 2 none :=
  ⟨by decide,
   list_messages_ignores_undecodable_before exStore5 exConvId 2 "not-a-real-id" (by decide)⟩

/-- **C2.** Once a Conversation containing the two distinct user ids `a` and
`b` exists, every Start Conversation call with `(a, b)` or `(b, a)` returns
one and the same existing Conversation (in particular the same id) and leaves
the store unchanged — no new Conversation document is inserted, in either
argument order. -/
theorem start_conversation_idempotent (st : Store) (a b : String) (hab : a ≠ b)
    (c : ConvDoc) (hc : c ∈ st.convs) (ha : a ∈ c.participant_ids)
    (hb : b ∈ c.participant_ids) :
    ∃ c₀, c₀ ∈ st.convs ∧ a ∈ c₀.participant_ids ∧ b ∈ c₀.participant_ids ∧
      start_conversation st a b = (.ok c₀, st) ∧
      start_conversation st b a = (.ok c₀, st) := by
  have hsome : (st.convs.find?
      (fun c => c.participant_ids.contains a && c.participant_ids.contains b)).isSome := by
    rw [List.find?_isSome]
    exact ⟨c, hc, by simp [List.contains, ha, hb]⟩
  obtain ⟨c₀, hc₀⟩ := Option.isSome_iff_exists.mp hsome
  have hpred := List.find?_some hc₀
  have hmem := List.mem_of_find?_eq_some hc₀
  have hparts := (Bool.and_eq_true _ _).mp hpred
  have ha₀ : a ∈ c₀.participant_ids := by simpa [List.contains] using hparts.1
  have hb₀ : b ∈ c₀.participant_ids := by simpa [List.contains] using hparts.2
  have hc₀' : List.find?
      (fun c : ConvDoc => decide (a ∈ c.participant_ids) && decide (b ∈ c.participant_ids))
      st.convs = some c₀ := by
    simpa [List.contains] using hc₀
  have hswap : (fun c : ConvDoc => decide (b ∈ c.participant_ids) && decide (a ∈ c.participant_ids))
      = (fun c : ConvDoc => decide (a ∈ c.participant_ids) && decide (b ∈ c.participant_ids)) := by
    funext x
    exact Bool.and_comm _ _
  refine ⟨c₀, hmem, ha₀, hb₀, ?_, ?_⟩
  · simp [start_conversation, hab, hc₀']
  · simp [start_conversation, Ne.symm hab, hswap, hc₀']

/-- **C2 witness.** With the `"u1"`/`"u2"` conversation already in
`exStore5`, both argument orders of Start Conversation return it and leave
the store unchanged. -/
theorem start_conversation_idempotent_witness :
    ∃ c₀, c₀ ∈ exStore5.convs ∧ "u1" ∈ c₀.participant_ids ∧
      "u2" ∈ c₀.participant_ids ∧
      start_conversation exStore5 "u1" "u2" = (.ok c₀, exStore5) ∧
      start_conversation exStore5 "u2" "u1" = (.ok c₀, exStore5) :=
  start_conversation_idempotent exStore5 "u1" "u2" (by decide) exConv5
    (by decide) (by decide) (by decide)

/-- Updating the first conversation carrying a given id keeps it as the
first match of a lookup for that id, now carrying the updated fields —
provided the update preserves `_id`. -/
theorem find?_updateFirstConv (l : List ConvDoc) (oid : OID) (f : ConvDoc → ConvDoc)
    (conv : ConvDoc) (hfind : l.find? (fun c => c._id == oid) = some conv)
    (hf : (f conv)._id = conv._id) :
    (updateFirstConv l oid f).find? (fun c => c._id == oid) = some (f conv) := by
  induction l with
  | nil => simp at hfind
  | cons d rest ih =>
    by_cases hd : d._id = oid
    · have hdc : conv = d := by
        rw [List.find?_cons_of_pos _ (by simp [hd])] at hfind
        exact (Option.some_inj.mp hfind).symm
      subst hdc
      simp [updateFirstConv, hd, List.find?_cons_of_pos, hf]
    · have hfind' : rest.find? (fun c => c._id == oid) = some conv := by
        rwa [List.find?_cons_of_neg _ (by simp [hd])] at hfind
      have hrec := ih hfind'
      simp [updateFirstConv, hd, List.find?_cons_of_neg, hrec]

/-- **C6.** Whenever a Send Message call passes its checks (the id decodes,
the Conversation exists, the sender is a participant), the call succeeds
with the freshly inserted Message, and the owning Conversation afterwards
has `last_message_preview` equal to the sent text and `updated_at` equal to
the call's wall-clock time — hence not older than any timestamp it carried
before the call, the wall clock not running backwards — while its
`participant_ids` and `_id` are unchanged. -/
theorem send_message_updates_preview (st : Store) (now : Nat) (p : SendMessage)
    (oid : OID) (hdec : decodeId p.conversation_id = some oid)
    (conv : ConvDoc) (hfind : findConv st oid = some conv)
    (hmem : p.sender_id ∈ conv.participant_ids)
    (hnow : ∀ t, conv.updated_at = some t → t ≤ now) :
    ∃ conv', findConv (send_message st now p).2 oid = some conv' ∧
      (send_message st now p).1 =
        .ok ⟨st.nextId, p.conversation_id, p.sender_id, p.text, true, false⟩ ∧
      conv'.last_message_preview = some p.text ∧
      conv'.updated_at = some now ∧
      (∀ t, conv.updated_at = some t → ∃ t', conv'.updated_at = some t' ∧ t ≤ t') ∧
      conv'.participant_ids = conv.participant_ids ∧
      conv'._id = conv._id := by
  have hconv_id : conv._id = oid := by
    simpa using List.find?_some hfind
  have hupd := find?_updateFirstConv st.convs oid
    (fun c => { c with last_message_preview := some p.text, updated_at := some now })
    conv hfind rfl
  refine ⟨{ conv with last_message_preview := some p.text, updated_at := some now },
    ?_, ?_, rfl, rfl, ?_, rfl, rfl⟩
  · simp only [send_message, hdec, findConv] at *
    rw [hfind]
    simp only [List.contains, List.elem_eq_mem, hmem, decide_eq_true_eq, if_pos]
    simpa [findConv, hconv_id] using hupd
  · simp only [send_message, hdec, findConv] at *
    rw [hfind]
    simp [List.contains, hmem]
  · intro t ht
    exact ⟨now, rfl, hnow t ht⟩

/-- **C6 witness.** Sending `"m6"` at time `6` in `exStore5` (whose
conversation carries preview `"m5"` and timestamp `5`) succeeds and leaves
the conversation with preview `"m6"`, timestamp `6`, and untouched
participants and id. -/
theorem send_message_updates_preview_witness :
    ∃ conv', findConv (send_message exStore5 6 ⟨exConvId, "u1", "m6"⟩).2 0 = some conv' ∧
      (send_message exStore5 6 ⟨exConvId, "u1", "m6"⟩).1 =
        .ok ⟨exStore5.nextId, exConvId, "u1", "m6", true, false⟩ ∧
      conv'.last_message_preview = some "m6" ∧
      conv'.updated_at = some 6 ∧
      (∀ t, exConv5.updated_at = some t → ∃ t', conv'.updated_at = some t' ∧ t ≤ t') ∧
      conv'.participant_ids = exConv5.participant_ids ∧
      conv'._id = exConv5._id :=
  send_message_updates_preview exStore5 6 ⟨exConvId, "u1", "m6"⟩ 0 (by decide)
    exConv5 (by decide) (by decide)
    (by intro t ht; simp [exConv5] at ht; omega)

/-- **C3.** For every store, conversation id, limit and `before` cursor, the
page returned by List Messages is in ascending id (chronological) order; and
concretely, with messages `m1 ... m5` (ids `1 ... 5`) inserted in that order
into one conversation, `list_messages` with limit `2` returns `[m4, m5]`, and
with limit `2` and `before = m4.id` returns `[m2, m3]`. -/
theorem list_messages_ascending_pagination :
    (∀ (st : Store) (cid : String) (limit : Int) (before : Option String),
      (list_messages st cid limit before).Sorted (fun m₁ m₂ : MsgDoc => m₁._id ≤ m₂._id)) ∧
    (list_messages exStore5 exConvId 2 none).map (fun m => (m._id, m.text)) =
      [(4, "m4"), (5, "m5")] ∧
    (list_messages exStore5 exConvId 2 (some (encodeId 4))).map (fun m => (m._id, m.text)) =
      [(2, "m2"), (3, "m3")] := by
  refine ⟨?_, by decide, by decide⟩
  intro st cid limit before
  haveI : IsTotal MsgDoc (fun m₁ m₂ : MsgDoc => m₂._id ≤ m₁._id) :=
    ⟨fun a b => Nat.le_total b._id a._id⟩
  haveI : IsTrans MsgDoc (fun m₁ m₂ : MsgDoc => m₂._id ≤ m₁._id) :=
    ⟨fun _ _ _ hab hbc => Nat.le_trans hbc hab⟩
  unfold list_messages
  dsimp only
  show List.Pairwise _ _
  rw [List.pairwise_reverse]
  unfold mongoLimit
  split
  · exact List.sorted_insertionSort _ _
  · exact List.Pairwise.sublist (List.take_sublist _ _) (List.sorted_insertionSort _ _)

/-- **C10.** At the public interface the `limit` parameter is not validated,
and a call with `limit = 0` returns all messages of the conversation (a
permutation — in fact the ascending ordering — of every stored message whose
`conversation_id` matches), not an empty page: pymongo treats a zero limit
as "no limit", so the default-50 cap is bypassed. -/
theorem list_messages_limit_zero_returns_all (st : Store) (cid : String) :
    (list_messages st cid 0 none).Perm
      (st.msgs.filter (fun m => m.conversation_id == cid)) ∧
    (list_messages st cid 0 none).length =
      (st.msgs.filter (fun m => m.conversation_id == cid)).length := by
  have hperm : (list_messages st cid 0 none).Perm
      (st.msgs.filter (fun m => m.conversation_id == cid)) := by
    unfold list_messages mongoLimit
    dsimp only
    simp only [if_pos rfl]
    exact (List.reverse_perm _).trans (List.perm_insertionSort _ _)
  exact ⟨hperm, hperm.length_eq⟩

/-- **C8.** The `POST /users` request model `CreateUser` carries no length
bounds: `username = "x"` (length 1) and a 25-character username both pass
request validation, the handler inserts the User document unconditionally,
and yet both usernames violate the 2–24 constraint declared by
`schemas.ChatUser` — so too-short and too-long usernames are not rejected. -/
theorem create_user_length_unvalidated :
    validateCreateUser (some "x") none = .ok ⟨"x", "#6366F1"⟩ ∧
    ChatUser.usernameValid "x" = false ∧
    create_user Store.empty ⟨"x", "#6366F1"⟩ =
      (⟨0, "x", "#6366F1"⟩, ⟨[⟨0, "x", "#6366F1"⟩], [], [], 1⟩) ∧
    validateCreateUser (some "abcdefghijklmnopqrstuvwxy") none =
      .ok ⟨"abcdefghijklmnopqrstuvwxy", "#6366F1"⟩ ∧
    ChatUser.usernameValid "abcdefghijklmnopqrstuvwxy" = false := by
  decide

/-- **C9.** The `POST /messages` request model `SendMessage` carries no
length bounds on `text`: the empty text passes request validation, and with
an existing conversation and a participant sender the handler inserts a
Message with empty text — violating the 1–4000 constraint declared by
`schemas.Message` — instead of rejecting the request. -/
theorem send_message_empty_text_accepted :
    validateSendMessage (some exConvId) (some "u1") (some "") =
      .ok ⟨exConvId, "u1", ""⟩ ∧
    Message.textValid "" = false ∧
    send_message exStore0 1 ⟨exConvId, "u1", ""⟩ =
      (.ok ⟨1, "0", "u1", "", true, false⟩,
       ⟨[], [⟨0, ["u1", "u2"], some "", some 1⟩],
        [⟨1, "0", "u1", "", true, false⟩], 2⟩) := by
  decide

end Chat
